import Mathlib

/-!
Verification development for the resilient call pipeline of
`src/server.js` (HTML-to-API proxy).

Shallow embedding notes:
- timestamps are `Nat` milliseconds; every place the source calls
  `Date.now()` takes an explicit `now : Nat` parameter;
- `Date.now() - cb.lastFailure` in the source is a JS number subtraction
  (with `null` coercing to `0`); we model it with `Nat` subtraction, which
  yields the same outcome for the only use, the comparison with the
  (positive) timeout, whenever the difference would be negative;
- fallible stages (axios transport after its retry policy, the headless
  browser renderer) are passed in as `Except` oracles, making
  `makeAPICall` a pure function of its inputs;
- the HTML document is a node tree; the CSS fragment actually exercised
  by the configured selectors (tag selectors, class selectors and
  comma-separated lists of those) is modelled; cheerio's selection
  semantics (`.text()` concatenates the text of all selected elements,
  `.find` searches descendants only) are reproduced;
- JS objects whose keys may be absent are modelled with `Option` fields:
  `none` stands for the key being `undefined`/absent, which
  `JSON.stringify` (used by `res.json`) omits from the serialized output.
-/

namespace HtmlToApi

/-- Circuit breaker failure threshold (src/server.js:86), default 5. -/
def CIRCUIT_BREAKER_FAILURE_THRESHOLD : Nat := 5

/-- Circuit breaker open-state timeout in ms (src/server.js:87), default 60000. -/
def CIRCUIT_BREAKER_TIMEOUT : Nat := 60000

/-- Circuit breaker half-open success threshold (src/server.js:88), default 3. -/
def CIRCUIT_BREAKER_SUCCESS_THRESHOLD : Nat := 3

/-- Breaker states, the strings 'closed', 'open', 'half-open' of src/server.js:91. -/
inductive CBState where
| closed : CBState
| open_ : CBState
| halfOpen : CBState
deriving DecidableEq

/-- Per-domain breaker record (src/server.js:96-101). -/
structure CircuitBreaker where
state : CBState
failures : Nat
lastFailure : Option Nat
successes : Nat
deriving DecidableEq

/-- The breaker value `getCircuitBreaker` installs on first reference to a
domain (src/server.js:94-104). -/
def initialBreaker : CircuitBreaker :=
{ state := .closed, failures := 0, lastFailure := none, successes := 0 }

/-- recordFailure (src/server.js:106-114): increment the failure counter,
stamp the failure time, and open the breaker once the counter reaches the
threshold. -/
def recordFailure (now : Nat) (cb : CircuitBreaker) : CircuitBreaker :=
let cb1 : CircuitBreaker := { cb with failures := cb.failures + 1, lastFailure := some now }
if CIRCUIT_BREAKER_FAILURE_THRESHOLD ≤ cb1.failures then { cb1 with state := .open_ } else cb1

/-- recordSuccess (src/server.js:116-129): in half-open, count successes and
close (resetting both counters) at the success threshold; in closed, reset the
failure counter; in open, do nothing. -/
def recordSuccess (cb : CircuitBreaker) : CircuitBreaker :=
match cb.state with
| .halfOpen =>
  let cb1 : CircuitBreaker := { cb with successes := cb.successes + 1 }
  if CIRCUIT_BREAKER_SUCCESS_THRESHOLD ≤ cb1.successes then
    { cb1 with state := .closed, failures := 0, successes := 0 }
  else cb1
| .closed => { cb with failures := 0 }
| .open_ => cb

/-- canProceed (src/server.js:131-146): closed and half-open let the call
through; open lets it through (moving to half-open and resetting the success
counter) only when strictly more than the timeout has elapsed since the last
failure. Returns the decision together with the (possibly updated) breaker.
JS coerces a `null` lastFailure to 0, hence `getD 0`. -/
def canProceed (now : Nat) (cb : CircuitBreaker) : Bool × CircuitBreaker :=
match cb.state with
| .closed => (true, cb)
| .open_ =>
  if CIRCUIT_BREAKER_TIMEOUT < now - (cb.lastFailure.getD 0) then
    (true, { cb with state := .halfOpen, successes := 0 })
  else (false, cb)
| .halfOpen => (true, cb)

/-- Breaker events: a recorded failure, a recorded success, or a gate check. -/
inductive CBEvent where
| fail (now : Nat) : CBEvent
| success : CBEvent
| proceed (now : Nat) : CBEvent

/-- One breaker transition. -/
def cbStep (cb : CircuitBreaker) : CBEvent → CircuitBreaker
| .fail now => recordFailure now cb
| .success => recordSuccess cb
| .proceed now => (canProceed now cb).2

/-- Breaker state reached from the fresh breaker by a sequence of events. -/
def cbRun (events : List CBEvent) : CircuitBreaker :=
events.foldl cbStep initialBreaker

/-- Invariant: away from `closed` the failure counter is at or above the
threshold (it is never reset on the closed-to-open or open-to-half-open
transitions). -/
def cbInv (cb : CircuitBreaker) : Prop :=
cb.state ≠ .closed → CIRCUIT_BREAKER_FAILURE_THRESHOLD ≤ cb.failures

/-- Prefix test on character lists, structurally recursive so that concrete
evaluation reduces. -/
def charsPrefix : List Char → List Char → Bool
| [], _ => true
| _ :: _, [] => false
| a :: as, b :: bs => a == b && charsPrefix as bs

/-- String prefix test (JS `startsWith`). -/
def strStartsWith (s p : String) : Bool :=
charsPrefix p.data s.data

/-- String suffix test (JS `endsWith`). -/
def strEndsWith (s p : String) : Bool :=
charsPrefix p.data.reverse s.data.reverse

/-- Drop the first n characters of a string. -/
def strDrop (s : String) (n : Nat) : String :=
String.mk (s.data.drop n)

/-- Character length of a string. -/
def strLen (s : String) : Nat :=
s.data.length

/-- Whitespace trim on both ends (JS `trim`). -/
def jsTrim (s : String) : String :=
String.mk (((s.data.dropWhile Char.isWhitespace).reverse.dropWhile Char.isWhitespace).reverse)

/-- Split on a separator character, accumulating the current piece. -/
def splitChAux (sep : Char) : List Char → List Char → List String
| [], acc => [String.mk acc.reverse]
| c :: cs, acc =>
  if c = sep then String.mk acc.reverse :: splitChAux sep cs []
  else splitChAux sep cs (c :: acc)

/-- Split a string on a separator character (JS `split`). -/
def splitCh (sep : Char) (s : String) : List String :=
splitChAux sep s.data []

/-- HTML node: a text node or an element with a tag, attributes and children. -/
inductive Node where
| text (s : String) : Node
| elem (tag : String) (attrs : List (String × String)) (children : List Node) : Node

/-- Children of a node (a text node has none). -/
def childrenOf : Node → List Node
| .text _ => []
| .elem _ _ cs => cs

/-- Attribute lookup on an element; `none` models cheerio's `undefined` for an
absent attribute. -/
def attr (n : Node) (name : String) : Option String :=
match n with
| .text _ => none
| .elem _ attrs _ => attrs.lookup name

mutual

/-- Text content of a node: concatenation of all descendant text, in document
order (cheerio `.text()` on a single element). -/
def textContent : Node → String
| .text s => s
| .elem _ _ cs => textContentList cs

/-- Concatenated text content of a list of nodes. -/
def textContentList : List Node → String
| [] => ""
| n :: ns => textContent n ++ textContentList ns

end

/-- One simple CSS selector: `.cls` matches elements whose class attribute
contains the token `cls`; anything else matches elements with that tag name.
This is the fragment exercised by the configured selector models. -/
def selMatchesOne (css : String) (n : Node) : Bool :=
match n with
| .text _ => false
| .elem tag attrs _ =>
  if strStartsWith css "." then
    (splitCh ' ' ((attrs.lookup "class").getD "")).contains (strDrop css 1)
  else tag == css

/-- A comma-separated selector list matches when any component matches
(cheerio: `input, select, textarea`). -/
def selMatches (css : String) (n : Node) : Bool :=
((splitCh ',' css).map jsTrim).any (fun s => selMatchesOne s n)

mutual

/-- All elements of a subtree matching the predicate, in document (pre-)order. -/
def collectMatches (p : Node → Bool) : Node → List Node
| .text s => if p (.text s) then [Node.text s] else []
| .elem tag attrs cs =>
  (if p (.elem tag attrs cs) then [Node.elem tag attrs cs] else [])
    ++ collectMatchesList p cs

/-- All matching elements of a forest, in document order. -/
def collectMatchesList (p : Node → Bool) : List Node → List Node
| [] => []
| n :: ns => collectMatches p n ++ collectMatchesList p ns

end

/-- Cheerio `$(css)` against the document root: all matches in document order. -/
def queryAll (doc : List Node) (css : String) : List Node :=
collectMatchesList (selMatches css) doc

/-- Cheerio `$(el).find(css)`: matches among the descendants of `el` only. -/
def findIn (el : Node) (css : String) : List Node :=
collectMatchesList (selMatches css) (childrenOf el)

/-- Configured selector shapes (src/server.js:563-581): a plain string is a
text selector; an object with type 'array' carries an outer selector and an
optional field map. -/
inductive Selector where
| textSel (css : String) : Selector
| arraySel (css : String) (fields : Option (List (String × String))) : Selector
deriving DecidableEq

/-- Domain configuration fields the pipeline reads (src/server.js:484-493). -/
structure DomainConfig where
baseUrl : String
selectors : List (String × Selector)
webhookUrl : Option String
useBrowser : Bool
deriving DecidableEq

/-- One extracted input/select/textarea descendant (src/server.js:596-601);
`none` models an absent attribute (`undefined`). -/
structure InputEntry where
name : Option String
type : Option String
value : Option String
placeholder : Option String
deriving DecidableEq

/-- One extracted form (src/server.js:588-592). -/
structure FormEntry where
action : Option String
method : String
inputs : List InputEntry
deriving DecidableEq

/-- Value of one configured selector field: trimmed text, or the array of
objects produced by an array selector (each object a list of string fields). -/
inductive FieldValue where
| text (s : String) : FieldValue
| items (l : List (List (String × String))) : FieldValue
deriving DecidableEq

/-- Output of the extraction engine: the configured fields plus the
always-present forms inventory. -/
structure ExtractedData where
fields : List (String × FieldValue)
forms : List FormEntry
deriving DecidableEq

/-- JavaScript `x || d` on an optional string: `undefined` and the empty
string are falsy (src/server.js:590 uses it for the method default). -/
def jsOr (x : Option String) (d : String) : String :=
match x with
| none => d
| some s => if s = "" then d else s

/-- Builds one input entry from an input/select/textarea element
(src/server.js:594-602). -/
def buildInputEntry (n : Node) : InputEntry :=
{ name := attr n "name", type := attr n "type",
  value := attr n "value", placeholder := attr n "placeholder" }

/-- The `$form.find` target of src/server.js:594. -/
def inputElems (f : Node) : List Node :=
findIn f "input, select, textarea"

/-- Builds one form entry from a form element (src/server.js:586-604). -/
def buildFormEntry (f : Node) : FormEntry :=
{ action := attr f "action",
  method := jsOr (attr f "method") "GET",
  inputs := (inputElems f).map buildInputEntry }

/-- extractData (src/server.js:558-608): for each configured selector, a
string selector yields the trimmed concatenated text of all matches; an array
selector maps each outer match to an object of per-field trimmed text (scoped
to that match via `.find`) or to a single `text` field; independently, the
forms inventory is always computed. -/
def extractData (doc : List Node) (config : DomainConfig) : ExtractedData :=
{ fields := config.selectors.map (fun kv =>
    match kv.2 with
    | .textSel css => (kv.1, FieldValue.text (jsTrim (textContentList (queryAll doc css))))
    | .arraySel css fieldsOpt =>
      (kv.1, FieldValue.items ((queryAll doc css).map (fun el =>
        match fieldsOpt with
        | some fs => fs.map (fun fld => (fld.1, jsTrim (textContentList (findIn el fld.2))))
        | none => [("text", jsTrim (textContent el))]))))
  forms := (queryAll doc "form").map buildFormEntry }

/-- JSON scalar for serialized form entries: the spec expects `null` for
absent attributes, the code produces `undefined` (which `JSON.stringify`
omits); a key that survives serialization carries a string. -/
inductive JVal where
| null : JVal
| str (s : String) : JVal
deriving DecidableEq

/-- Helper: `JSON.stringify` keeps a key only when its value is defined. -/
def optMember (k : String) (v : Option String) : List (String × JVal) :=
match v with
| none => []
| some s => [(k, JVal.str s)]

/-- Serialized form of one input entry as `res.json` emits it
(src/server.js:434): keys with `undefined` values are omitted. -/
def inputEntryJson (e : InputEntry) : List (String × JVal) :=
optMember "name" e.name ++ optMember "type" e.type
  ++ optMember "value" e.value ++ optMember "placeholder" e.placeholder

/-- Serialized form of one input entry as the spec describes it (spec §4.1):
every absent attribute yields the value `null`, the key is never omitted. -/
def inputEntryJsonSpec (e : InputEntry) : List (String × JVal) :=
[("name", (e.name.map JVal.str).getD JVal.null),
 ("type", (e.type.map JVal.str).getD JVal.null),
 ("value", (e.value.map JVal.str).getD JVal.null),
 ("placeholder", (e.placeholder.map JVal.str).getD JVal.null)]

/-- Trimmed text of the first match only — the spec's wording for a text
selector (spec §4.1), to be compared with `extractData`'s behaviour. -/
def specFirstMatchText (doc : List Node) (css : String) : String :=
match (queryAll doc css).head? with
| none => ""
| some n => jsTrim (textContent n)

/-- HTTP methods the pipeline dispatches. -/
inductive Method where
| GET : Method
| POST : Method
deriving DecidableEq

/-- The string the source interpolates for a method. -/
def methodString : Method → String
| .GET => "GET"
| .POST => "POST"

/-- What the axios transport hands back on success: an HTTP status and the
response body already parsed into a document. -/
structure UpstreamResponse where
status : Nat
data : List Node

/-- CallResult (src/server.js:393-399): `cached : Option Bool` models the JS
object's `cached` key, which is absent (`none`) on a freshly built result and
set only on a cache hit. -/
structure CallResult where
domain : String
url : String
data : ExtractedData
timestamp : Nat
status : Nat
cached : Option Bool
deriving DecidableEq

/-- One memory-cache entry: key, stored payload, absolute expiry time. -/
structure CacheEntry where
key : String
payload : CallResult
expiresAt : Nat
deriving DecidableEq

/-- getCacheKey (src/server.js:302-304). -/
def getCacheKey (domain path method : String) : String :=
method ++ ":" ++ domain ++ ":" ++ path

/-- getCachedResponse (src/server.js:306-308): a hit requires an unexpired
entry under the key. -/
def getCachedResponse (cache : List CacheEntry) (key : String) (now : Nat) : Option CallResult :=
match cache.find? (fun e => e.key == key) with
| some e => if now < e.expiresAt then some e.payload else none
| none => none

/-- setCachedResponse (src/server.js:310-312): store under the key with
expiry `now + ttl`, replacing any previous entry for the key. -/
def setCachedResponse (cache : List CacheEntry) (key : String) (payload : CallResult)
    (now ttl : Nat) : List CacheEntry :=
{ key := key, payload := payload, expiresAt := now + ttl } :: cache.filter (fun e => ¬(e.key == key))

/-- Typed failures a call can surface (spec §7 / src/server.js). -/
inductive CallError where
| circuitOpen : CallError
| referenceError : CallError
| transportError : CallError
| rendererError : CallError
deriving DecidableEq

/-- Which collaborators a call touched. -/
structure CallEffects where
cacheLookedUp : Bool
sessionTouched : Bool
transportCalled : Bool
rendererCalled : Bool
webhookFired : Bool
deriving DecidableEq

/-- No collaborator touched. -/
def noEffects : CallEffects :=
{ cacheLookedUp := false, sessionTouched := false, transportCalled := false,
  rendererCalled := false, webhookFired := false }

/-- Result of one `makeAPICall`: outcome, breaker after the gate check, cache
after any write, and the effect trace. -/
structure CallOutcome where
result : Except CallError CallResult
breaker : CircuitBreaker
cache : List CacheEntry
effects : CallEffects

/-- makeAPICall (src/server.js:315-412). Stages in source order: breaker gate
(throwing before anything else is touched), GET-only cache lookup, cookie-jar
acquisition, dispatch via the headless browser (GET with `useBrowser`) or the
retrying axios transport, extraction, result assembly. The assembly
(src/server.js:398) reads `response`, but `response` is a `const` declared at
line 386 inside the non-browser else block, which closes at line 388 — so on
every path that reaches the assembly, browser or not, the source raises a
ReferenceError instead of building a CallResult; the GET cache write
(line 403) and the webhook dispatch (line 408) are unreachable. The only
successful return is a cache hit: a copy of the stored entry with `cached`
forced to true. -/
def makeAPICall (now : Nat) (domain path : String) (method : Method)
    (config : DomainConfig) (cb : CircuitBreaker) (cache : List CacheEntry)
    (transport : Except Unit UpstreamResponse)
    (renderer : Except Unit (List Node)) : CallOutcome :=
let pr := canProceed now cb
if pr.1 = false then
  { result := .error .circuitOpen, breaker := pr.2, cache := cache, effects := noEffects }
else
  let cacheKey := getCacheKey domain path (methodString method)
  let cachedHit := if method = Method.GET then getCachedResponse cache cacheKey now else none
  match cachedHit with
  | some c =>
    { result := .ok { c with cached := some true }, breaker := pr.2, cache := cache,
      effects := { noEffects with cacheLookedUp := true } }
  | none =>
    let effects0 : CallEffects :=
      { cacheLookedUp := if method = Method.GET then true else false,
        sessionTouched := true, transportCalled := false,
        rendererCalled := false, webhookFired := false }
    if method = Method.GET ∧ config.useBrowser = true then
      match renderer with
      | .error _ =>
        { result := .error .rendererError, breaker := pr.2, cache := cache,
          effects := { effects0 with rendererCalled := true } }
      | .ok html =>
        let _ := extractData html config
        -- extraction (src/server.js:390-391) completes, then the result
        -- object literal reads the out-of-scope `response`: ReferenceError
        { result := .error .referenceError, breaker := pr.2, cache := cache,
          effects := { effects0 with rendererCalled := true } }
    else
      match transport with
      | .error _ =>
        { result := .error .transportError, breaker := pr.2, cache := cache,
          effects := { effects0 with transportCalled := true } }
      | .ok resp =>
        let _ := extractData resp.data config
        -- html := response.data (line 387) and extraction (lines 390-391)
        -- complete, but the else block holding `const response` closed at
        -- line 388, so the assembly at line 398 reads it out of scope on
        -- this path too: ReferenceError, before any cache write or webhook
        { result := .error .referenceError, breaker := pr.2, cache := cache,
          effects := { effects0 with transportCalled := true } }

/-- The `/api/:domain/*` endpoint handlers (src/server.js:415-470): run the
call, then record a success on a JSON response and a failure — at the current
time — on any caught error, including a breaker rejection. -/
def handleRequest (now : Nat) (domain path : String) (method : Method)
    (config : DomainConfig) (cb : CircuitBreaker) (cache : List CacheEntry)
    (transport : Except Unit UpstreamResponse)
    (renderer : Except Unit (List Node)) :
    Except CallError CallResult × CircuitBreaker × List CacheEntry :=
let o := makeAPICall now domain path method config cb cache transport renderer
match o.result with
| .ok r => (.ok r, recordSuccess o.breaker, o.cache)
| .error e => (.error e, recordFailure now o.breaker, o.cache)

/-- Repeated traffic: handle one request per timestamp, threading breaker and
cache. -/
def runTraffic (domain path : String) (method : Method) (config : DomainConfig)
    (transport : Except Unit UpstreamResponse)
    (renderer : Except Unit (List Node)) :
    List Nat → CircuitBreaker × List CacheEntry → CircuitBreaker × List CacheEntry
| [], st => st
| t :: ts, st =>
  let o := handleRequest t domain path method config st.1 st.2 transport renderer
  runTraffic domain path method config transport renderer ts (o.2.1, o.2.2)

/-- Each request arrives at most the breaker timeout after the previous
failure stamp. -/
def gapsOK : Nat → List Nat → Prop
| _, [] => True
| lf, t :: ts => t - lf ≤ CIRCUIT_BREAKER_TIMEOUT ∧ gapsOK t ts

/-- Cookie as stored in a tough-cookie jar: the fields the round-trip claim
names, plus the host-only flag that controls serialization of the Domain
attribute. -/
structure Cookie where
key : String
value : String
domain : String
path : String
hostOnly : Bool
deriving DecidableEq

/-- The part of a session's base URL cookie matching reads. -/
structure BaseUrl where
host : String
path : String
deriving DecidableEq

/-- tough-cookie domain matching: exact host or a dot-separated suffix. -/
def domainMatch (host dom : String) : Bool :=
host == dom || strEndsWith host ("." ++ dom)

/-- RFC 6265 path matching as tough-cookie implements it. -/
def pathMatch (reqPath cookiePath : String) : Bool :=
reqPath == cookiePath
  || (strStartsWith reqPath cookiePath
      && (strEndsWith cookiePath "/"
          || strStartsWith (strDrop reqPath (strLen cookiePath)) "/"))

/-- Whether `getCookiesSync(url)` returns this cookie: host-only cookies need
the exact host, others domain-match; the path must path-match. -/
def cookieMatchesUrl (u : BaseUrl) (c : Cookie) : Bool :=
(if c.hostOnly then u.host == c.domain else domainMatch u.host c.domain)
  && pathMatch u.path c.path

/-- jar.getCookiesSync(baseUrl) (src/server.js:215): only the cookies
matching the base URL, in jar order. -/
def getCookiesSync (jar : List Cookie) (u : BaseUrl) : List Cookie :=
jar.filter (cookieMatchesUrl u)

/-- Parsed form of `cookie.toString()`: tough-cookie omits the Domain
attribute for a host-only cookie and always emits the Path attribute. -/
structure SerializedCookie where
key : String
value : String
domainAttr : Option String
pathAttr : Option String
deriving DecidableEq

/-- cookie.toString() (src/server.js:215), in parsed form. -/
def cookieToString (c : Cookie) : SerializedCookie :=
{ key := c.key, value := c.value,
  domainAttr := if c.hostOnly then none else some c.domain,
  pathAttr := some c.path }

/-- The cookie `setCookieSync(str, baseUrl)` builds: a missing Domain
attribute makes the cookie host-only on the URL's host; a missing Path
attribute defaults to the URL's path. -/
def parseSetCookie (s : SerializedCookie) (u : BaseUrl) : Cookie :=
{ key := s.key, value := s.value,
  domain := s.domainAttr.getD u.host,
  path := s.pathAttr.getD u.path,
  hostOnly := s.domainAttr.isNone }

/-- jar.setCookieSync (src/server.js:184): replace an existing cookie with
the same (domain, path, key), otherwise append. -/
def setCookieSync (jar : List Cookie) (s : SerializedCookie) (u : BaseUrl) : List Cookie :=
let c := parseSetCookie s u
if jar.any (fun o => o.domain == c.domain && o.path == c.path && o.key == c.key) then
  jar.map (fun o => if o.domain == c.domain && o.path == c.path && o.key == c.key then c else o)
else jar ++ [c]

/-- saveSessions, per domain (src/server.js:207-222): serialize the cookies
`getCookiesSync(baseUrl)` returns. -/
def saveSessionCookies (jar : List Cookie) (u : BaseUrl) : List SerializedCookie :=
(getCookiesSync jar u).map cookieToString

/-- Session restore, per domain (src/server.js:177-195): replay each
serialized cookie against the session's base URL into a fresh jar. -/
def restoreSessionCookies (cookies : List SerializedCookie) (u : BaseUrl) : List Cookie :=
cookies.foldl (fun j s => setCookieSync j s u) []

/-- Two cookies do not collide on the (domain, path, key) triple. -/
def cookieTripleDistinct (a b : Cookie) : Prop :=
¬(a.domain = b.domain ∧ a.path = b.path ∧ a.key = b.key)

/-- A jar is well-formed when no two cookies share (domain, path, key) —
tough-cookie's store holds at most one cookie per such triple. -/
def cookieKeysDistinct (jar : List Cookie) : Prop :=
jar.Pairwise cookieTripleDistinct

/-- Apply `recordFailure` once per listed timestamp, in order. -/
def failSeq (cb : CircuitBreaker) : List Nat → CircuitBreaker
| [] => cb
| t :: ts => failSeq (recordFailure t cb) ts

/-- A configuration with no selectors, no webhook and no browser. -/
def cfgEx : DomainConfig :=
{ baseUrl := "https://example.com", selectors := [], webhookUrl := none, useBrowser := false }

/-- The breaker after five recorded failures at time 0. -/
def cbOpenAt0 : CircuitBreaker :=
cbRun [.fail 0, .fail 0, .fail 0, .fail 0, .fail 0]

/-- Events reaching the half-open state: five failures at 0, then a gate
check after the timeout. -/
def evHalfOpen : List CBEvent :=
[.fail 0, .fail 0, .fail 0, .fail 0, .fail 0, .proceed 60001]

/-- The outcome of a first, uncached GET call at concrete inputs. -/
def freshOutcome : CallOutcome :=
makeAPICall 0 "example.com" "page" Method.GET cfgEx initialBreaker []
  (Except.ok { status := 200, data := [] }) (Except.error ())

/-- A `useBrowser` configuration. -/
def cfgBrowser : DomainConfig :=
{ baseUrl := "https://example.com", selectors := [], webhookUrl := none, useBrowser := true }

/-- The outcome of a POST call to a `useBrowser` domain at concrete inputs. -/
def postBrowserOutcome : CallOutcome :=
makeAPICall 0 "example.com" "submit" Method.POST cfgBrowser initialBreaker []
  (Except.ok { status := 200, data := [] }) (Except.ok [])

/-- A document with two h1 elements carrying different text. -/
def docTwoH1 : List Node :=
[Node.elem "h1" [] [Node.text "A"], Node.elem "h1" [] [Node.text "B"]]

/-- A configuration with a single text selector on h1. -/
def cfgTitle : DomainConfig :=
{ baseUrl := "https://example.com", selectors := [("title", Selector.textSel "h1")],
  webhookUrl := none, useBrowser := false }

/-- An input element with only a name attribute. -/
def inputNameOnly : Node :=
Node.elem "input" [("name", "q")] []

/-- A jar whose only cookie does not match the session base URL. -/
def jarAdmin : List Cookie :=
[{ key := "a", value := "1", domain := "example.com", path := "/admin", hostOnly := true }]

/-- The base URL of the example session. -/
def urlRoot : BaseUrl :=
{ host := "example.com", path := "/" }

/-- A jar with two cookies matching the base URL and one that does not. -/
def jarMixed : List Cookie :=
[{ key := "sid", value := "42", domain := "example.com", path := "/", hostOnly := true },
 { key := "theme", value := "dark", domain := "example.com", path := "/", hostOnly := false },
 { key := "a", value := "1", domain := "example.com", path := "/admin", hostOnly := true }]

theorem cbInv_initial : cbInv initialBreaker := by
intro h
exact absurd rfl h

theorem cbInv_recordFailure (now : Nat) (cb : CircuitBreaker) (h : cbInv cb) :
    cbInv (recordFailure now cb) := by
unfold cbInv at h ⊢
unfold recordFailure
by_cases hc : CIRCUIT_BREAKER_FAILURE_THRESHOLD ≤ cb.failures + 1
· simp [hc]
· simp [hc]
  by_contra hst
  exact hc (Nat.le_succ_of_le (h hst))

theorem cbInv_recordSuccess (cb : CircuitBreaker) (h : cbInv cb) :
    cbInv (recordSuccess cb) := by
unfold cbInv at h ⊢
unfold recordSuccess
cases hst : cb.state with
| closed => simp [hst]
| open_ =>
  simp [hst]
  exact h (by simp [hst])
| halfOpen =>
  by_cases hc : CIRCUIT_BREAKER_SUCCESS_THRESHOLD ≤ cb.successes + 1
  · simp [hst, hc]
  · simp [hst, hc]
    exact h (by simp [hst])

theorem cbInv_canProceed (now : Nat) (cb : CircuitBreaker) (h : cbInv cb) :
    cbInv (canProceed now cb).2 := by
unfold cbInv at h ⊢
unfold canProceed
cases hst : cb.state with
| closed => simp [hst]
| open_ =>
  by_cases hc : CIRCUIT_BREAKER_TIMEOUT < now - cb.lastFailure.getD 0
  · simp [hst, hc]
    exact h (by simp [hst])
  · simp [hst, hc]
    exact h (by simp [hst])
| halfOpen =>
  simp [hst]
  exact h (by simp [hst])

theorem cbInv_step (cb : CircuitBreaker) (e : CBEvent) (h : cbInv cb) :
    cbInv (cbStep cb e) := by
cases e with
| fail now => exact cbInv_recordFailure now cb h
| success => exact cbInv_recordSuccess cb h
| proceed now => exact cbInv_canProceed now cb h

theorem cbInv_foldl (events : List CBEvent) :
    ∀ cb : CircuitBreaker, cbInv cb → cbInv (events.foldl cbStep cb) := by
induction events with
| nil => intro cb h; simpa using h
| cons e es ih => intro cb h; simpa using ih (cbStep cb e) (cbInv_step cb e h)

theorem cbInv_run (events : List CBEvent) : cbInv (cbRun events) :=
cbInv_foldl events initialBreaker cbInv_initial

theorem canProceed_open_within (now lf : Nat) (cb : CircuitBreaker)
    (h1 : cb.state = .open_) (h2 : cb.lastFailure = some lf)
    (h : now - lf ≤ CIRCUIT_BREAKER_TIMEOUT) :
    canProceed now cb = (false, cb) := by
unfold canProceed
have hn : ¬ CIRCUIT_BREAKER_TIMEOUT < now - lf := Nat.not_lt.mpr h
simp [h1, h2, hn]

theorem recordFailure_open (t : Nat) (cb : CircuitBreaker) (h : cb.state = .open_) :
    recordFailure t cb =
      { cb with failures := cb.failures + 1, lastFailure := some t, state := .open_ } := by
obtain ⟨st, f, l, s⟩ := cb
simp only at h
subst h
unfold recordFailure
by_cases hc : CIRCUIT_BREAKER_FAILURE_THRESHOLD ≤ f + 1 <;> simp [hc]

theorem handleRequest_open (t lf : Nat) (domain path : String) (method : Method)
    (config : DomainConfig) (cb : CircuitBreaker) (cache : List CacheEntry)
    (transport : Except Unit UpstreamResponse) (renderer : Except Unit (List Node))
    (h1 : cb.state = .open_) (h2 : cb.lastFailure = some lf)
    (ht : t - lf ≤ CIRCUIT_BREAKER_TIMEOUT) :
    handleRequest t domain path method config cb cache transport renderer =
      (.error .circuitOpen, recordFailure t cb, cache) := by
unfold handleRequest makeAPICall
rw [canProceed_open_within t lf cb h1 h2 ht]
simp

theorem runTraffic_open (domain path : String) (method : Method) (config : DomainConfig)
    (transport : Except Unit UpstreamResponse) (renderer : Except Unit (List Node)) :
    ∀ (ts : List Nat) (cb : CircuitBreaker) (cache : List CacheEntry) (lf : Nat),
      cb.state = .open_ → cb.lastFailure = some lf → gapsOK lf ts →
      (runTraffic domain path method config transport renderer ts (cb, cache)).1.state = .open_ := by
intro ts
induction ts with
| nil =>
  intro cb cache lf h1 _ _
  simpa [runTraffic] using h1
| cons t ts ih =>
  intro cb cache lf h1 h2 h3
  obtain ⟨hgap, hrest⟩ := h3
  have hs : (recordFailure t cb).state = .open_ := by rw [recordFailure_open t cb h1]
  have hl : (recordFailure t cb).lastFailure = some t := by rw [recordFailure_open t cb h1]
  have hstep := handleRequest_open t lf domain path method config cb cache transport renderer h1 h2 hgap
  unfold runTraffic
  rw [hstep]
  exact ih (recordFailure t cb) cache t hs hl hrest

/-- C1: for a breaker in the closed state with a clean failure counter,
exactly `failureThreshold` (5) consecutive recorded failures open the breaker
(four do not), and a call made before the open-state timeout has elapsed is
rejected as a circuit-open error with the breaker and cache unchanged and no
cache lookup, session access, transport or renderer invocation. -/
theorem c1_threshold_opens_breaker_then_fast_fail
    (cb0 : CircuitBreaker) (t1 t2 t3 t4 t5 now : Nat)
    (domain path : String) (method : Method) (config : DomainConfig)
    (cache : List CacheEntry) (transport : Except Unit UpstreamResponse)
    (renderer : Except Unit (List Node))
    (hstate : cb0.state = .closed) (hfail : cb0.failures = 0)
    (hnow : now ≤ t5 + CIRCUIT_BREAKER_TIMEOUT) :
    (failSeq cb0 [t1, t2, t3, t4]).state = .closed
    ∧ (failSeq cb0 [t1, t2, t3, t4, t5]).state = .open_
    ∧ (failSeq cb0 [t1, t2, t3, t4, t5]).failures = CIRCUIT_BREAKER_FAILURE_THRESHOLD
    ∧ makeAPICall now domain path method config (failSeq cb0 [t1, t2, t3, t4, t5])
        cache transport renderer
        = { result := .error .circuitOpen, breaker := failSeq cb0 [t1, t2, t3, t4, t5],
            cache := cache, effects := noEffects } := by
obtain ⟨st, f, l, s⟩ := cb0
simp only at hstate hfail
subst hstate
subst hfail
have h4 : failSeq ⟨.closed, 0, l, s⟩ [t1, t2, t3, t4]
    = ⟨.closed, 4, some t4, s⟩ := by
  simp [failSeq, recordFailure, CIRCUIT_BREAKER_FAILURE_THRESHOLD]
have h5 : failSeq ⟨.closed, 0, l, s⟩ [t1, t2, t3, t4, t5]
    = ⟨.open_, 5, some t5, s⟩ := by
  simp [failSeq, recordFailure, CIRCUIT_BREAKER_FAILURE_THRESHOLD]
refine ⟨by rw [h4], by rw [h5], by rw [h5]; rfl, ?_⟩
rw [h5]
have hcp : canProceed now (⟨.open_, 5, some t5, s⟩ : CircuitBreaker)
    = (false, (⟨.open_, 5, some t5, s⟩ : CircuitBreaker)) := by
  apply canProceed_open_within now t5
  · rfl
  · rfl
  · have : CIRCUIT_BREAKER_TIMEOUT = 60000 := rfl
    omega
unfold makeAPICall
rw [hcp]
simp

/-- Witness for C1 at concrete inputs. -/
theorem c1_threshold_opens_breaker_then_fast_fail_witness :
    (failSeq initialBreaker [1, 2, 3, 4]).state = .closed
    ∧ (failSeq initialBreaker [1, 2, 3, 4, 5]).state = .open_
    ∧ (failSeq initialBreaker [1, 2, 3, 4, 5]).failures = CIRCUIT_BREAKER_FAILURE_THRESHOLD
    ∧ makeAPICall 6 "example.com" "page" Method.GET cfgEx
        (failSeq initialBreaker [1, 2, 3, 4, 5]) [] (Except.error ()) (Except.error ())
        = { result := .error .circuitOpen,
            breaker := failSeq initialBreaker [1, 2, 3, 4, 5],
            cache := [], effects := noEffects } :=
c1_threshold_opens_breaker_then_fast_fail initialBreaker 1 2 3 4 5 6
  "example.com" "page" Method.GET cfgEx [] (Except.error ()) (Except.error ())
  (by decide) (by decide) (by decide)

/-- C2 counterexample: with the last failure at time 0, a gate check at
exactly `now − lastFailureAt = timeout` (60000 ms) does NOT transition the
breaker to half-open — the source requires strictly more than the timeout —
refuting the claim that the first check with `now − lastFailureAt ≥ timeout`
is let through. -/
theorem c2_counterexample_boundary_call_still_rejected :
    cbOpenAt0.state = CBState.open_
    ∧ cbOpenAt0.lastFailure = some 0
    ∧ CIRCUIT_BREAKER_TIMEOUT ≤ 60000 - 0
    ∧ (canProceed 60000 cbOpenAt0).1 = false
    ∧ ((canProceed 60000 cbOpenAt0).2).state = CBState.open_ := by
decide

/-- C2 (amended): an open breaker rejects every call while
`now − lastFailureAt ≤ timeout` and stays unchanged; the first gate check with
`now − lastFailureAt > timeout` (strictly) moves it to half-open with the
success counter reset to 0 and is allowed through. -/
theorem c2_amended_open_breaker_strict_timeout
    (cb : CircuitBreaker) (lf now : Nat)
    (h1 : cb.state = .open_) (h2 : cb.lastFailure = some lf) :
    (now - lf ≤ CIRCUIT_BREAKER_TIMEOUT → canProceed now cb = (false, cb))
    ∧ (CIRCUIT_BREAKER_TIMEOUT < now - lf →
        canProceed now cb = (true, { cb with state := .halfOpen, successes := 0 })) := by
constructor
· intro h
  exact canProceed_open_within now lf cb h1 h2 h
· intro h
  unfold canProceed
  simp [h1, h2, h]

/-- Witness for C2 (amended) at concrete inputs: rejected at 60000, admitted
at 60001. -/
theorem c2_amended_open_breaker_strict_timeout_witness :
    canProceed 60000 cbOpenAt0 = (false, cbOpenAt0)
    ∧ canProceed 60001 cbOpenAt0 = (true, { cbOpenAt0 with state := .halfOpen, successes := 0 }) :=
⟨(c2_amended_open_breaker_strict_timeout cbOpenAt0 0 60000 (by decide) (by decide)).1 (by decide),
 (c2_amended_open_breaker_strict_timeout cbOpenAt0 0 60001 (by decide) (by decide)).2 (by decide)⟩

/-- C4: a call rejected by the open breaker is itself recorded as a failure by
the endpoint handler's catch — the failure counter is incremented, the last
failure time refreshed to the call's time, the state left open — and under
continuous traffic whose every request arrives within the timeout window of
the previous failure stamp, the breaker never reaches half-open. -/
theorem c4_rejection_recorded_breaker_never_half_opens
    (domain path : String) (method : Method) (config : DomainConfig)
    (cache : List CacheEntry) (transport : Except Unit UpstreamResponse)
    (renderer : Except Unit (List Node)) (cb : CircuitBreaker) (lf t : Nat) (ts : List Nat)
    (h1 : cb.state = .open_) (h2 : cb.lastFailure = some lf)
    (ht : t - lf ≤ CIRCUIT_BREAKER_TIMEOUT) (hts : gapsOK lf ts) :
    handleRequest t domain path method config cb cache transport renderer =
      (.error .circuitOpen,
       { cb with failures := cb.failures + 1, lastFailure := some t, state := .open_ },
       cache)
    ∧ (runTraffic domain path method config transport renderer ts (cb, cache)).1.state = .open_ := by
constructor
· rw [handleRequest_open t lf domain path method config cb cache transport renderer h1 h2 ht]
  rw [recordFailure_open t cb h1]
· exact runTraffic_open domain path method config transport renderer ts cb cache lf h1 h2 hts

/-- Witness for C4 at concrete inputs: three rejected requests inside the
window keep the breaker open. -/
theorem c4_rejection_recorded_breaker_never_half_opens_witness :
    handleRequest 10 "example.com" "page" Method.GET cfgEx cbOpenAt0 [] (Except.error ())
        (Except.error ()) =
      (.error .circuitOpen,
       { cbOpenAt0 with failures := cbOpenAt0.failures + 1, lastFailure := some 10, state := .open_ },
       [])
    ∧ (runTraffic "example.com" "page" Method.GET cfgEx (Except.error ()) (Except.error ())
        [10, 60000, 120000] (cbOpenAt0, [])).1.state = .open_ :=
c4_rejection_recorded_breaker_never_half_opens "example.com" "page" Method.GET cfgEx []
  (Except.error ()) (Except.error ()) cbOpenAt0 0 10 [10, 60000, 120000]
  (by decide) (by decide) (by decide)
  (by simp [gapsOK, CIRCUIT_BREAKER_TIMEOUT])

/-- C5: the failure counter survives the transitions — `recordFailure` always
increments it (also on the closed-to-open transition), the gate check (and in
particular its open-to-half-open transition) never changes it, a success while
closed resets it — and every reachable breaker seen in the half-open state is
re-opened by a single recorded failure. -/
theorem c5_failure_counter_never_reset_half_open_reopens
    (cb : CircuitBreaker) (events : List CBEvent) (now t : Nat) :
    (recordFailure t cb).failures = cb.failures + 1
    ∧ ((canProceed now cb).2).failures = cb.failures
    ∧ (cb.state = .closed → (recordSuccess cb).failures = 0)
    ∧ ((cbRun events).state = .halfOpen → (recordFailure t (cbRun events)).state = .open_) := by
refine ⟨?_, ?_, ?_, ?_⟩
· unfold recordFailure
  by_cases hc : CIRCUIT_BREAKER_FAILURE_THRESHOLD ≤ cb.failures + 1 <;> simp [hc]
· unfold canProceed
  cases hst : cb.state with
  | closed => rfl
  | open_ =>
    by_cases hc : CIRCUIT_BREAKER_TIMEOUT < now - cb.lastFailure.getD 0
    · simp [hc]
    · simp [hc]
  | halfOpen => rfl
· intro hst
  unfold recordSuccess
  rw [hst]
· intro hst
  have hge : CIRCUIT_BREAKER_FAILURE_THRESHOLD ≤ (cbRun events).failures :=
    cbInv_run events (by simp [hst])
  unfold recordFailure
  have : CIRCUIT_BREAKER_FAILURE_THRESHOLD ≤ (cbRun events).failures + 1 :=
    Nat.le_succ_of_le hge
  simp [this]

/-- Witness for C5 at concrete inputs: the breaker reached via five failures
and a post-timeout gate check is half-open, and one more failure re-opens it. -/
theorem c5_failure_counter_never_reset_half_open_reopens_witness :
    (cbRun evHalfOpen).state = CBState.halfOpen
    ∧ (recordFailure 60002 (cbRun evHalfOpen)).state = CBState.open_ :=
⟨by decide,
 (c5_failure_counter_never_reset_half_open_reopens initialBreaker evHalfOpen 0 60002).2.2.2
   (by decide)⟩

theorem getCached_after_set (cache : List CacheEntry) (key : String) (payload : CallResult)
    (now1 now2 ttl : Nat) (h : now2 < now1 + ttl) :
    getCachedResponse (setCachedResponse cache key payload now1 ttl) key now2 = some payload := by
unfold getCachedResponse setCachedResponse
rw [List.find?_cons_of_pos]
· simp [h]
· simp

/-- C3: a GET call to a `useBrowser` domain that passes the breaker gate,
misses the cache, and whose browser fetch succeeds never produces a
CallResult: result assembly reads the non-browser branch's block-scoped
`response`, so the call fails with a ReferenceError (the renderer having been
invoked, the transport not). -/
theorem c3_browser_get_always_reference_error
    (now : Nat) (domain path : String) (config : DomainConfig)
    (cb : CircuitBreaker) (cache : List CacheEntry)
    (transport : Except Unit UpstreamResponse) (html : List Node)
    (hgate : (canProceed now cb).1 = true)
    (hbrowser : config.useBrowser = true)
    (hmiss : getCachedResponse cache (getCacheKey domain path "GET") now = none) :
    (makeAPICall now domain path Method.GET config cb cache transport (.ok html)).result
      = .error .referenceError
    ∧ (makeAPICall now domain path Method.GET config cb cache transport
        (.ok html)).effects.rendererCalled = true
    ∧ (makeAPICall now domain path Method.GET config cb cache transport
        (.ok html)).effects.transportCalled = false := by
refine ⟨?_, ?_, ?_⟩ <;> simp [makeAPICall, methodString, hgate, hmiss, hbrowser]

/-- Witness for C3 at concrete inputs. -/
theorem c3_browser_get_always_reference_error_witness :
    (makeAPICall 0 "example.com" "page" Method.GET
        { cfgEx with useBrowser := true } initialBreaker [] (Except.error ())
        (Except.ok [])).result = .error .referenceError
    ∧ (makeAPICall 0 "example.com" "page" Method.GET
        { cfgEx with useBrowser := true } initialBreaker [] (Except.error ())
        (Except.ok [])).effects.rendererCalled = true
    ∧ (makeAPICall 0 "example.com" "page" Method.GET
        { cfgEx with useBrowser := true } initialBreaker [] (Except.error ())
        (Except.ok [])).effects.transportCalled = false :=
c3_browser_get_always_reference_error 0 "example.com" "page"
  { cfgEx with useBrowser := true } initialBreaker [] (Except.error ()) []
  (by decide) (by decide) (by decide)

/-- C6 (code bug): at the failing input — a first, uncached GET call to a
configured non-browser domain, closed breaker, empty cache, upstream
responding 200 — the call produces no CallResult at all: after extraction the
result assembly reads the out-of-scope `response` (src/server.js:398) and
raises a ReferenceError, and the cache is left unwritten (the write at
line 403 is unreachable), so neither the claimed fresh `cached:false` result
nor the later cache hit can ever happen. -/
theorem c6_code_bug_fresh_get_raises_reference_error :
    freshOutcome.result = .error .referenceError
    ∧ freshOutcome.cache = []
    ∧ freshOutcome.effects.transportCalled = true
    ∧ freshOutcome.effects.webhookFired = false :=
⟨rfl, rfl, rfl, rfl⟩

/-- C9 counterexample: a POST call to a domain with `useBrowser=true` invokes
the retrying transport, not the renderer — the browser branch additionally
requires the method to be GET — refuting the claim for every HTTP method. -/
theorem c9_counterexample_post_uses_transport :
    cfgBrowser.useBrowser = true
    ∧ postBrowserOutcome.effects.transportCalled = true
    ∧ postBrowserOutcome.effects.rendererCalled = false := by
decide

/-- C9 (amended): only GET calls to a `useBrowser` domain bypass the retrying
transport in favour of the renderer; a POST call to the same domain is
dispatched through the retrying transport and never invokes the renderer. -/
theorem c9_amended_only_get_bypasses_transport
    (now : Nat) (domain path : String) (config : DomainConfig)
    (cb : CircuitBreaker) (cache : List CacheEntry)
    (transport : Except Unit UpstreamResponse) (renderer : Except Unit (List Node))
    (hgate : (canProceed now cb).1 = true)
    (hbrowser : config.useBrowser = true)
    (hmiss : getCachedResponse cache (getCacheKey domain path "GET") now = none) :
    ((makeAPICall now domain path Method.GET config cb cache transport
        renderer).effects.rendererCalled = true
     ∧ (makeAPICall now domain path Method.GET config cb cache transport
        renderer).effects.transportCalled = false)
    ∧ ((makeAPICall now domain path Method.POST config cb cache transport
        renderer).effects.transportCalled = true
       ∧ (makeAPICall now domain path Method.POST config cb cache transport
        renderer).effects.rendererCalled = false) := by
constructor
· cases renderer with
  | error e => exact ⟨by simp [makeAPICall, methodString, hgate, hmiss, hbrowser],
      by simp [makeAPICall, methodString, hgate, hmiss, hbrowser]⟩
  | ok h => exact ⟨by simp [makeAPICall, methodString, hgate, hmiss, hbrowser],
      by simp [makeAPICall, methodString, hgate, hmiss, hbrowser]⟩
· cases transport with
  | error e => exact ⟨by simp [makeAPICall, methodString, hgate],
      by simp [makeAPICall, methodString, hgate]⟩
  | ok r => exact ⟨by simp [makeAPICall, methodString, hgate],
      by simp [makeAPICall, methodString, hgate]⟩

/-- Witness for C9 (amended) at concrete inputs. -/
theorem c9_amended_only_get_bypasses_transport_witness :
    ((makeAPICall 0 "example.com" "page" Method.GET cfgBrowser initialBreaker []
        (Except.ok { status := 200, data := [] }) (Except.ok [])).effects.rendererCalled = true
     ∧ (makeAPICall 0 "example.com" "page" Method.GET cfgBrowser initialBreaker []
        (Except.ok { status := 200, data := [] }) (Except.ok [])).effects.transportCalled = false)
    ∧ ((makeAPICall 0 "example.com" "page" Method.POST cfgBrowser initialBreaker []
        (Except.ok { status := 200, data := [] }) (Except.ok [])).effects.transportCalled = true
       ∧ (makeAPICall 0 "example.com" "page" Method.POST cfgBrowser initialBreaker []
        (Except.ok { status := 200, data := [] }) (Except.ok [])).effects.rendererCalled = false) :=
c9_amended_only_get_bypasses_transport 0 "example.com" "page" cfgBrowser initialBreaker []
  (Except.ok { status := 200, data := [] }) (Except.ok [])
  (by decide) (by decide) (by decide)

/-- C7 counterexample: on a document with two h1 matches, the engine emits the
concatenated text of ALL matches ("AB"), not the text of the first match
("A") — cheerio `.text()` concatenates over the whole selection — refuting
the first-match claim. -/
theorem c7_counterexample_text_selector_concatenates :
    (extractData docTwoH1 cfgTitle).fields = [("title", FieldValue.text "AB")]
    ∧ specFirstMatchText docTwoH1 "h1" = "A"
    ∧ FieldValue.text "AB" ≠ FieldValue.text (specFirstMatchText docTwoH1 "h1") := by
decide

/-- C7 (amended): a TextSelector field is set to the trimmed concatenation of
the text content of ALL elements matching the CSS expression, in document
order — the empty string when nothing matches — and extraction is a total
function (never an error). -/
theorem c7_amended_text_selector_all_matches
    (doc : List Node) (config : DomainConfig) (key css : String)
    (h : (key, Selector.textSel css) ∈ config.selectors) :
    (key, FieldValue.text (jsTrim (textContentList (queryAll doc css))))
      ∈ (extractData doc config).fields
    ∧ (queryAll doc css = [] →
        (key, FieldValue.text "") ∈ (extractData doc config).fields) := by
have htrim : jsTrim "" = "" := by decide
constructor
· simp only [extractData, List.mem_map]
  exact ⟨(key, Selector.textSel css), h, rfl⟩
· intro hq
  simp only [extractData, List.mem_map]
  refine ⟨(key, Selector.textSel css), h, ?_⟩
  simp [hq, textContentList, htrim]

/-- Witness for C7 (amended) at concrete inputs. -/
theorem c7_amended_text_selector_all_matches_witness :
    (("title", FieldValue.text (jsTrim (textContentList (queryAll ([] : List Node) "h1"))))
      ∈ (extractData ([] : List Node) cfgTitle).fields)
    ∧ (queryAll ([] : List Node) "h1" = [] →
        ("title", FieldValue.text "") ∈ (extractData ([] : List Node) cfgTitle).fields) :=
c7_amended_text_selector_all_matches [] cfgTitle "title" "h1" (by decide)

/-- C8 counterexample: an input whose type, value and placeholder attributes
are absent serializes with those keys OMITTED — `attr` yields `undefined` and
`JSON.stringify` drops the key — not with the value `null` the claim (and
spec) require; the spec-shaped rendering differs from the code's. -/
theorem c8_counterexample_absent_attribute_key_omitted :
    inputEntryJson (buildInputEntry inputNameOnly) = [("name", JVal.str "q")]
    ∧ (inputEntryJson (buildInputEntry inputNameOnly)).lookup "placeholder" = none
    ∧ (inputEntryJsonSpec (buildInputEntry inputNameOnly)).lookup "placeholder"
        = some JVal.null
    ∧ inputEntryJson (buildInputEntry inputNameOnly)
        ≠ inputEntryJsonSpec (buildInputEntry inputNameOnly) := by
decide

/-- C8 (amended): independent of the configured selector model the engine
emits one forms entry per form element, with the method defaulting to GET
when the attribute is absent and one input entry per input/select/textarea
descendant; in the serialized output each of the four attribute keys is
present with the attribute's string value exactly when the attribute is
present on the element — an absent attribute leads to the key being omitted
(never a null value), and no other keys appear. -/
theorem c8_amended_forms_inventory
    (doc : List Node) (config config2 : DomainConfig) (n : Node) :
    (extractData doc config).forms = (extractData doc config2).forms
    ∧ (extractData doc config).forms.length = (queryAll doc "form").length
    ∧ (attr n "method" = none → (buildFormEntry n).method = "GET")
    ∧ (buildFormEntry n).inputs.length = (inputElems n).length
    ∧ (∀ a ∈ (["name", "type", "value", "placeholder"] : List String),
        (inputEntryJson (buildInputEntry n)).lookup a = (attr n a).map JVal.str)
    ∧ (∀ m ∈ inputEntryJson (buildInputEntry n),
        m.1 ∈ (["name", "type", "value", "placeholder"] : List String)) := by
refine ⟨rfl, by simp [extractData], ?_, by simp [buildFormEntry], ?_, ?_⟩
· intro h
  simp [buildFormEntry, jsOr, h]
· intro a ha
  fin_cases ha <;>
  · cases h1 : attr n "name" <;> cases h2 : attr n "type" <;>
      cases h3 : attr n "value" <;> cases h4 : attr n "placeholder" <;>
      simp [inputEntryJson, buildInputEntry, optMember, h1, h2, h3, h4, List.lookup]
· intro m hm
  cases h1 : attr n "name" <;> cases h2 : attr n "type" <;>
    cases h3 : attr n "value" <;> cases h4 : attr n "placeholder" <;>
    simp [inputEntryJson, buildInputEntry, optMember, h1, h2, h3, h4] at hm <;>
    rcases hm with hm | hm | hm | hm <;> simp_all

/-- Witness for C8 (amended) at concrete inputs. -/
theorem c8_amended_forms_inventory_witness :
    ((extractData docTwoH1 cfgTitle).forms = (extractData docTwoH1 cfgEx).forms)
    ∧ (extractData docTwoH1 cfgTitle).forms.length = (queryAll docTwoH1 "form").length
    ∧ (attr inputNameOnly "method" = none → (buildFormEntry inputNameOnly).method = "GET")
    ∧ (buildFormEntry inputNameOnly).inputs.length = (inputElems inputNameOnly).length
    ∧ (∀ a ∈ (["name", "type", "value", "placeholder"] : List String),
        (inputEntryJson (buildInputEntry inputNameOnly)).lookup a
          = (attr inputNameOnly a).map JVal.str)
    ∧ (∀ m ∈ inputEntryJson (buildInputEntry inputNameOnly),
        m.1 ∈ (["name", "type", "value", "placeholder"] : List String)) :=
c8_amended_forms_inventory docTwoH1 cfgTitle cfgEx inputNameOnly

theorem cookieTripleDistinct_symm : Symmetric cookieTripleDistinct := by
intro a b h hc
exact h ⟨hc.1.symm, hc.2.1.symm, hc.2.2.symm⟩

theorem parse_toString (u : BaseUrl) (c : Cookie) (h : cookieMatchesUrl u c = true) :
    parseSetCookie (cookieToString c) u = c := by
obtain ⟨k, v, d, p, ho⟩ := c
cases ho with
| true =>
  have hd : u.host = d := by
    unfold cookieMatchesUrl at h
    simp at h
    exact h.1
  simp [parseSetCookie, cookieToString, hd]
| false =>
  simp [parseSetCookie, cookieToString]

theorem setCookieSync_append (jar : List Cookie) (s : SerializedCookie) (u : BaseUrl)
    (h : ∀ o ∈ jar, cookieTripleDistinct o (parseSetCookie s u)) :
    setCookieSync jar s u = jar ++ [parseSetCookie s u] := by
unfold setCookieSync
have hany : (jar.any (fun o => o.domain == (parseSetCookie s u).domain
    && o.path == (parseSetCookie s u).path && o.key == (parseSetCookie s u).key)) = false := by
  rw [List.any_eq_false]
  intro o ho
  have hne := h o ho
  unfold cookieTripleDistinct at hne
  cases hb : (o.domain == (parseSetCookie s u).domain
      && o.path == (parseSetCookie s u).path && o.key == (parseSetCookie s u).key) with
  | false => simp
  | true =>
    simp at hb
    exact absurd ⟨hb.1.1, hb.1.2, hb.2⟩ hne
simp [hany]

theorem restore_foldl (u : BaseUrl) :
    ∀ (l : List SerializedCookie) (acc : List Cookie),
      (acc ++ l.map (fun s => parseSetCookie s u)).Pairwise cookieTripleDistinct →
      l.foldl (fun j s => setCookieSync j s u) acc
        = acc ++ l.map (fun s => parseSetCookie s u) := by
intro l
induction l with
| nil => intro acc _; simp
| cons s l ih =>
  intro acc h
  have hmap : acc ++ (s :: l).map (fun s => parseSetCookie s u)
      = acc ++ parseSetCookie s u :: l.map (fun s => parseSetCookie s u) := by simp
  rw [hmap] at h
  have hsep : ∀ o ∈ acc, cookieTripleDistinct o (parseSetCookie s u) := by
    intro o ho
    have hp := List.pairwise_append.mp h
    exact hp.2.2 o ho (parseSetCookie s u) (List.mem_cons_self _ _)
  have hstep : setCookieSync acc s u = acc ++ [parseSetCookie s u] :=
    setCookieSync_append acc s u hsep
  rw [List.foldl_cons, hstep]
  have h2 : ((acc ++ [parseSetCookie s u])
      ++ l.map (fun s => parseSetCookie s u)).Pairwise cookieTripleDistinct := by
    rw [List.append_assoc]
    simpa using h
  rw [ih (acc ++ [parseSetCookie s u]) h2]
  simp

/-- C10 counterexample: a session jar holding a cookie whose path does not
match the session base URL loses that cookie across persist+restore —
`saveSessions` serializes only `getCookiesSync(baseUrl)` — refuting the claim
for every cookie in the domain's jar. -/
theorem c10_counterexample_nonmatching_cookie_dropped :
    restoreSessionCookies (saveSessionCookies jarAdmin urlRoot) urlRoot = []
    ∧ jarAdmin ≠ [] := by
decide

/-- C10 (amended): for a well-formed jar, persisting and then restoring — in
any serialization order — reproduces exactly the cookies of the jar that
match the session's base URL (same name, value, domain and path, the cookies
being equal outright); cookies not matching the base URL are dropped. -/
theorem c10_amended_roundtrip_reproduces_matching_cookies
    (jar : List Cookie) (u : BaseUrl) (l2 : List SerializedCookie)
    (hdist : cookieKeysDistinct jar)
    (hperm : l2.Perm (saveSessionCookies jar u)) :
    (restoreSessionCookies l2 u).Perm (getCookiesSync jar u) := by
have hfd : (getCookiesSync jar u).Pairwise cookieTripleDistinct := by
  unfold getCookiesSync
  exact List.Pairwise.sublist (List.filter_sublist jar) hdist
have hid : ∀ c ∈ getCookiesSync jar u, parseSetCookie (cookieToString c) u = c := by
  intro c hc
  exact parse_toString u c (List.mem_filter.mp hc).2
have hmapeq : (saveSessionCookies jar u).map (fun s => parseSetCookie s u)
    = getCookiesSync jar u := by
  unfold saveSessionCookies
  rw [List.map_map]
  have hcong : ∀ c ∈ getCookiesSync jar u,
      ((fun s => parseSetCookie s u) ∘ cookieToString) c = id c := by
    intro c hc
    simp [Function.comp, hid c hc]
  rw [List.map_congr_left hcong, List.map_id]
have hl2 : (l2.map (fun s => parseSetCookie s u)).Perm (getCookiesSync jar u) := by
  have hp := hperm.map (fun s => parseSetCookie s u)
  rwa [hmapeq] at hp
have hpw : (l2.map (fun s => parseSetCookie s u)).Pairwise cookieTripleDistinct :=
  (hl2.pairwise_iff (fun hab => cookieTripleDistinct_symm hab)).mpr hfd
have hre : restoreSessionCookies l2 u = l2.map (fun s => parseSetCookie s u) := by
  unfold restoreSessionCookies
  have h0 := restore_foldl u l2 [] (by simpa using hpw)
  simpa using h0
rw [hre]
exact hl2

/-- Witness for C10 (amended) at concrete inputs: restoring the reversed
snapshot of a mixed jar yields a permutation of its base-URL-matching
cookies. -/
theorem c10_amended_roundtrip_reproduces_matching_cookies_witness :
    (restoreSessionCookies (saveSessionCookies jarMixed urlRoot).reverse urlRoot).Perm
      (getCookiesSync jarMixed urlRoot) :=
c10_amended_roundtrip_reproduces_matching_cookies jarMixed urlRoot
  (saveSessionCookies jarMixed urlRoot).reverse
  (by simp [cookieKeysDistinct, cookieTripleDistinct, jarMixed, List.pairwise_cons])
  (List.reverse_perm _)

end HtmlToApi
